import Mathlib

/-!
Shallow embedding of the init service supervisor (`init/service.cpp`) and the
property service (`property_service.cpp`) of this repository, together with
proofs about the lifecycle operations and the property-store operations.

Service flag bits (`SVC_*` from `service.h`) are embedded as named boolean
fields of the `Service` structure; the integer `how` argument of
`StopOrReset` keeps its numeric encoding because the code compares it against
the three flag constants and coerces every other value to `SVC_DISABLED`.

Externally visible actions (property publications, signals sent to a process
group, the fatal abort of a critical service) are collected in an event list
returned next to the new state.
-/

namespace SystemCore

/-- Numeric value of the `SVC_DISABLED` flag constant (from `service.h`). -/
def SVC_DISABLED : Nat := 0x01

/-- Numeric value of the `SVC_RESET` flag constant (from `service.h`). -/
def SVC_RESET : Nat := 0x40

/-- Numeric value of the `SVC_RESTART` flag constant (from `service.h`). -/
def SVC_RESTART : Nat := 0x100

/-- Signal number of SIGKILL. -/
def SIGKILL : Int := 9

/-- Signal number of SIGTERM. -/
def SIGTERM : Int := 15

/-- Runtime state of one `Service` object: the `SVC_*` flag bitset is split
into one boolean field per bit, next to the runtime fields used by the
lifecycle operations (`pid_`, `start_order_`, crash accounting, cgroup and
post-data markers).  Time is measured in seconds of `boot_clock`. -/
structure Service where
  name : String
  disabled : Bool
  rc_disabled : Bool
  oneshot : Bool
  running : Bool
  restarting : Bool
  console : Bool
  critical : Bool
  reset : Bool
  restart : Bool
  disabled_start : Bool
  temporary : Bool
  exec : Bool
  pid : Nat
  start_order : Nat
  time_started : Nat
  time_crashed : Nat
  crash_count : Nat
  process_cgroup_empty : Bool
  pre_apexd : Bool
  post_data : Bool
  running_at_post_data_reset : Bool
  deriving Repr, DecidableEq

/-- Externally visible actions of a lifecycle operation. -/
inductive SvcEvent where
  /-- `property_set(name, value)` reached the property store. -/
  | publish (name value : String)
  /-- a signal was delivered to the service's process group -/
  | kill (signal : Int)
  /-- `LOG(FATAL)`: init aborts into the bootloader -/
  | fatal
  deriving Repr, DecidableEq

/-- `Service::NotifyStateChange`: publish `init.svc.<name>` unless the
service is `SVC_TEMPORARY`; on entering `running`, additionally publish
`ro.boottime.<name>` when that property is still unset (`boottime_unset`). -/
def NotifyStateChange (s : Service) (new_state : String) (boottime_unset : Bool) :
    List SvcEvent :=
  if s.temporary then []
  else
    SvcEvent.publish ("init.svc." ++ s.name) new_state ::
      (if new_state = "running" ∧ boottime_unset then
        [SvcEvent.publish ("ro.boottime." ++ s.name) (toString s.time_started)]
      else [])

/-- `Service::KillProcessGroup`: signal the process group unless a previous
call already succeeded (`process_cgroup_empty_`); `kill_ok` is the result of
the `killProcessGroup*` call, which marks the cgroup empty on success. -/
def KillProcessGroup (s : Service) (signal : Int) (kill_ok : Bool) :
    Service × List SvcEvent :=
  if s.process_cgroup_empty then (s, [])
  else
    (if kill_ok then { s with process_cgroup_empty := true } else s,
     [SvcEvent.kill signal])

/-- `Service::StopOrReset(how)`: clear `RESTARTING|DISABLED_START`, coerce an
illegal `how` to `SVC_DISABLED`, mutate the flags, then kill the process
group and publish `stopping` when a process exists, else publish `stopped`. -/
def StopOrReset (kill_ok : Bool) (how : Nat) (s : Service) :
    Service × List SvcEvent :=
  let s := { s with restarting := false, disabled_start := false }
  let how :=
    if how ≠ SVC_DISABLED ∧ how ≠ SVC_RESET ∧ how ≠ SVC_RESTART then SVC_DISABLED
    else how
  let s :=
    if how = SVC_RESET then
      if s.rc_disabled then { s with disabled := true } else { s with reset := true }
    else
      if how = SVC_DISABLED then { s with disabled := true }
      else { s with restart := true }
  let s :=
    if how = SVC_RESTART then { s with disabled := false, reset := false }
    else { s with restart := false }
  if s.pid ≠ 0 then
    let p := KillProcessGroup s SIGKILL kill_ok
    (p.1, p.2 ++ NotifyStateChange p.1 "stopping" false)
  else
    (s, NotifyStateChange s "stopped" false)

/-- Outcomes of the environment interactions a lifecycle operation performs
(OS calls, the registry, the property store).  `fork_result` is `none` when
`fork`/`clone` fails and `some pid` (the child pid, positive) on success;
`updatable_delayed` is `is_updatable() && !IsServicesUpdated()`. -/
structure Env where
  updatable_delayed : Bool
  console_ok : Bool
  stat_ok : Bool
  scon_ok : Bool
  runtime_apex_ready : Bool
  is_post_data : Bool
  fork_result : Option Nat
  now : Nat
  boottime_unset : Bool
  kill_ok : Bool
  is_apex_updatable : Bool
  boot_completed : Bool
  deriving Repr, DecidableEq

/-- Result of a `Start`-like operation: the new service state, the registry's
`next_start_order_` counter after the call, whether the `Result<void>` was
success, and the emitted events. -/
structure StartOut where
  state : Service
  next_order : Nat
  ok : Bool
  events : List SvcEvent
  deriving Repr, DecidableEq

/-- `Service::Start`.  The updatable-delay check, the console probe, the
`stat` of `argv[0]`, the security-context computation and the fork are
environment interactions whose outcomes come from `env`.  On a successful
fork the parent records the pid, stamps `time_started_`, takes a fresh
`start_order_`, clears `process_cgroup_empty_`, sets `SVC_RUNNING` and
publishes `running`. -/
def Start (env : Env) (next_order : Nat) (s : Service) : StartOut :=
  if env.updatable_delayed then ⟨s, next_order, false, []⟩
  else
    let disabled := s.disabled ∨ s.reset
    let s := { s with disabled := false, restarting := false, reset := false,
                      restart := false, disabled_start := false }
    if s.running then
      let s := if s.oneshot ∧ disabled then { s with restart := true } else s
      ⟨s, next_order, true, []⟩
    else if s.console ∧ ¬env.console_ok then
      ⟨{ s with disabled := true }, next_order, false, []⟩
    else if ¬env.stat_ok then
      ⟨{ s with disabled := true }, next_order, false, []⟩
    else if ¬env.scon_ok then
      ⟨s, next_order, false, []⟩
    else
      let s := if ¬env.runtime_apex_ready ∧ ¬s.pre_apexd then
                 { s with pre_apexd := true }
               else s
      let s := { s with post_data := env.is_post_data }
      match env.fork_result with
      | none => ⟨{ s with pid := 0 }, next_order, false, []⟩
      | some pid =>
        let s := { s with time_started := env.now, pid := pid, running := true,
                          start_order := next_order, process_cgroup_empty := false }
        ⟨s, next_order + 1, true, NotifyStateChange s "running" env.boottime_unset⟩

/-- `Service::ExecStart`: refuse updatable services before the registry is
services-updated, set `SVC_ONESHOT`, run `Start`, and on success set
`SVC_EXEC`. -/
def ExecStart (env : Env) (next_order : Nat) (s : Service) : StartOut :=
  if env.updatable_delayed then ⟨s, next_order, false, []⟩
  else
    let s := { s with oneshot := true }
    let r := Start env next_order s
    if r.ok then { r with state := { r.state with exec := true } } else r

/-- `Service::StartIfNotDisabled`: `Start` when `SVC_DISABLED` is clear, else
latch `SVC_DISABLED_START`. -/
def StartIfNotDisabled (env : Env) (next_order : Nat) (s : Service) : StartOut :=
  if ¬s.disabled then Start env next_order s
  else ⟨{ s with disabled_start := true }, next_order, true, []⟩

/-- `Service::Enable`: clear `SVC_DISABLED|SVC_RC_DISABLED`; `Start` when
`SVC_DISABLED_START` was latched. -/
def Enable (env : Env) (next_order : Nat) (s : Service) : StartOut :=
  let s := { s with disabled := false, rc_disabled := false }
  if s.disabled_start then Start env next_order s
  else ⟨s, next_order, true, []⟩

/-- `Service::Stop`. -/
def Stop (kill_ok : Bool) (s : Service) : Service × List SvcEvent :=
  StopOrReset kill_ok SVC_DISABLED s

/-- `Service::Reset`. -/
def Reset (kill_ok : Bool) (s : Service) : Service × List SvcEvent :=
  StopOrReset kill_ok SVC_RESET s

/-- `Service::ResetIfPostData`. -/
def ResetIfPostData (kill_ok : Bool) (s : Service) : Service × List SvcEvent :=
  if s.post_data then
    let s := if s.running then { s with running_at_post_data_reset := true } else s
    StopOrReset kill_ok SVC_RESET s
  else (s, [])

/-- `Service::StartIfPostData`. -/
def StartIfPostData (env : Env) (next_order : Nat) (s : Service) : StartOut :=
  if s.running_at_post_data_reset then Start env next_order s
  else ⟨s, next_order, true, []⟩

/-- `Service::Terminate`: clear `RESTARTING|DISABLED_START`, set `DISABLED`,
and when a process exists send SIGTERM and publish `stopping`. -/
def Terminate (kill_ok : Bool) (s : Service) : Service × List SvcEvent :=
  let s := { s with restarting := false, disabled_start := false, disabled := true }
  if s.pid ≠ 0 then
    let p := KillProcessGroup s SIGTERM kill_ok
    (p.1, p.2 ++ NotifyStateChange p.1 "stopping" false)
  else (s, [])

/-- `Service::Timeout`: when a process exists send SIGKILL and publish
`stopping`; flags are left for `Reap`. -/
def Timeout (kill_ok : Bool) (s : Service) : Service × List SvcEvent :=
  if s.pid ≠ 0 then
    let p := KillProcessGroup s SIGKILL kill_ok
    (p.1, p.2 ++ NotifyStateChange p.1 "stopping" false)
  else (s, [])

/-- `Service::Restart`. -/
def Restart (env : Env) (next_order : Nat) (s : Service) : StartOut :=
  if s.running then
    let p := StopOrReset env.kill_ok SVC_RESTART s
    ⟨p.1, next_order, true, p.2⟩
  else if ¬s.restarting then
    let r := Start env next_order s
    ⟨r.state, r.next_order, true, r.events⟩
  else ⟨s, next_order, true, []⟩

/-- Four minutes of the crash-rate window, in seconds of `boot_clock`. -/
def fourMinutes : Nat := 240

/-- Crash-policy block of `Service::Reap` (source lines 259–288): for a
`SVC_CRITICAL` or updatable service not being manually restarted, a crash
inside the four-minute window (or before boot completed) bumps
`crash_count_`; past 4 crashes a critical service aborts init (third
component `true`) and an updatable one publishes
`ro.init.updatable_crashing = 1`; a crash outside the window restarts the
window with `crash_count_ = 1`. -/
def ReapCrashPolicy (env : Env) (s : Service) : Service × List SvcEvent × Bool :=
  let is_process_updatable := ¬s.pre_apexd ∧ env.is_apex_updatable
  if (s.critical ∨ is_process_updatable) ∧ ¬s.restart then
    if env.now < s.time_crashed + fourMinutes ∨ ¬env.boot_completed then
      let s := { s with crash_count := s.crash_count + 1 }
      if s.crash_count > 4 then
        if s.critical then (s, [SvcEvent.fatal], true)
        else (s, [SvcEvent.publish "ro.init.updatable_crashing" "1"], false)
      else (s, [], false)
    else ({ s with time_crashed := env.now, crash_count := 1 }, [], false)
  else (s, [], false)

/-- Tail of `Service::Reap` past the temporary-service early return: drop the
pid, `SVC_RUNNING` and the start order, move exited oneshots to `DISABLED`,
publish `stopped` for disabled/reset services, else run the crash policy
(stopping there when it aborted init) and transition to `SVC_RESTARTING`. -/
def ReapNonTemporary (env : Env) (s : Service) : Service × List SvcEvent :=
  let s := { s with pid := 0, running := false, start_order := 0 }
  let s := if s.oneshot ∧ ¬s.restart ∧ ¬s.reset then { s with disabled := true }
           else s
  if s.disabled ∨ s.reset then (s, NotifyStateChange s "stopped" false)
  else
    let q := ReapCrashPolicy env s
    if q.2.2 then (q.1, q.2.1)
    else
      let s := { q.1 with restart := false, restarting := true }
      (s, q.2.1 ++ NotifyStateChange s "restarting" false)

/-- `Service::Reap` proper: kill the process group unless the service is
ONESHOT without RESTART, clear `SVC_EXEC`, stop early for `SVC_TEMPORARY`
(the descriptor cleanup and the reap callbacks touch no service state), and
otherwise run `ReapNonTemporary`. -/
def Reap (env : Env) (s : Service) : Service × List SvcEvent :=
  let p := if ¬s.oneshot ∨ s.restart then KillProcessGroup s SIGKILL env.kill_ok
           else (s, [])
  let s := { p.1 with exec := false }
  if s.temporary then (s, p.2)
  else
    let r := ReapNonTemporary env s
    (r.1, p.2 ++ r.2)

/-! ## Property service (`property_service.cpp`) -/

/-- Result codes of the property service (`PROP_SUCCESS` / `PROP_ERROR_*`),
kept symbolic. -/
inductive PropResult where
  | success
  | errReadCmd
  | errReadData
  | errInvalidCmd
  | errInvalidName
  | errInvalidValue
  | errPermissionDenied
  | errSetFailed
  | errReadOnly
  | errHandleControlMessage
  deriving Repr, DecidableEq

/-- `android::base::StartsWith`, over the character data. -/
def StartsWith (s pre : String) : Bool := pre.toList.isPrefixOf s.toList

/-- A character of the legal property-name alphabet `[A-Za-z0-9._-]`. -/
def legalNameChar (c : Char) : Bool :=
  c.isAlphanum ∨ c = '.' ∨ c = '_' ∨ c = '-'

/-- Split a character list at `'.'` into its segments. -/
def splitDots : List Char → List (List Char)
  | [] => [[]]
  | c :: rest =>
    match splitDots rest with
    | [] => [[]]
    | s :: ss => if c = '.' then [] :: s :: ss else (c :: s) :: ss

/-- Modelled from the spec: `IsLegalPropertyName` lives in `util.cpp`, which
is not part of this source tree.  Per the spec a legal name is non-empty, at
most 31 bytes, drawn from the alphabet `[A-Za-z0-9._-]`, and has no empty
`.`-separated segment. -/
def IsLegalPropertyName (name : String) : Bool :=
  name.length ≠ 0 ∧ name.length ≤ 31 ∧
  name.toList.all legalNameChar ∧
  (splitDots name.toList).all (· ≠ [])

/-- Modelled from the spec: `IsLegalPropertyValue` lives in `util.cpp`, which
is not part of this source tree.  Per the spec a value of length 91 is
accepted and one of length 92 is rejected. -/
def IsLegalPropertyValue (_name value : String) : Bool :=
  value.length ≤ 91

/-- State of the property store and the property-service globals. -/
structure PropState where
  store : List (String × String)
  persistent_properties_loaded : Bool
  accept_messages : Bool
  deriving Repr, DecidableEq

/-- `__system_property_find`: first entry of the given name. -/
def findProp (store : List (String × String)) (name : String) : Option String :=
  (store.find? (fun p => p.1 = name)).map (·.2)

/-- `__system_property_update`: replace the value stored under `name`. -/
def updateProp (store : List (String × String)) (name value : String) :
    List (String × String) :=
  store.map (fun p => if p.1 = name then (name, value) else p)

/-- Externally visible actions of the property service. -/
inductive PropEvent where
  /-- `WritePersistentProperty` (durable write) -/
  | persistWrite (name value : String)
  /-- `PropertyChanged` sent on the internal socket -/
  | changedMsg (name value : String)
  /-- `ControlRequest` sent on the internal socket -/
  | controlMsg (msg name : String) (pid : Nat)
  /-- a path queued for the asynchronous restorecon worker -/
  | triggerRestorecon (path : String)
  /-- the `sys.powerctl` blame log line -/
  | logPowerctl (value : String) (pid : Nat)
  /-- the worker finished `selinux_android_restorecon` on `path` -/
  | restoreconDone (path : String)
  /-- the worker stored `kRestoreconProperty = path` as a normal property -/
  | workerStore (path : String)
  deriving Repr, DecidableEq

/-- `PropertySet`: validate name and value, enforce the `ro.` write-once
rule, update or add the entry (`add_ok` is the verdict of
`__system_property_add`), then mirror `persist.` names to the durable store
and emit `PropertyChanged` when messages are accepted. -/
def PropertySet (add_ok : Bool) (st : PropState) (name value : String) :
    PropResult × PropState × List PropEvent :=
  if ¬IsLegalPropertyName name then (PropResult.errInvalidName, st, [])
  else if ¬IsLegalPropertyValue name value then (PropResult.errInvalidValue, st, [])
  else
    let ev :=
      (if st.persistent_properties_loaded ∧ StartsWith name "persist." then
        [PropEvent.persistWrite name value]
      else []) ++
      (if st.accept_messages then [PropEvent.changedMsg name value] else [])
    match findProp st.store name with
    | some _ =>
      if StartsWith name "ro." then (PropResult.errReadOnly, st, [])
      else (PropResult.success, { st with store := updateProp st.store name value }, ev)
    | none =>
      if add_ok then
        (PropResult.success, { st with store := st.store ++ [(name, value)] }, ev)
      else (PropResult.errSetFailed, st, [])

/-- Iterated `PropertySet`: apply a sequence of `(add_ok, name, value)`
set operations to the store. -/
def applySets (st : PropState) : List (Bool × String × String) → PropState
  | [] => st
  | (a, n, v) :: rest => applySets (PropertySet a st n v).2.1 rest

/-- The restorecon trigger property, `kRestoreconProperty` (from
`selinux.h`): `selinux.restorecon_recursive`. -/
def kRestoreconProperty : String := "selinux.restorecon_recursive"

/-- Environment of the server-side handlers: the SELinux `CheckMacPerms`
verdict per checked property string, the `CheckType` verdict (the trie and
the type checker live outside this source tree), the vendor API level, and
the outcomes of `SendMessage` and `__system_property_add`. -/
structure ServerEnv where
  mac : String → Bool
  type_ok : String → String → Bool
  api_above_q : Bool
  send_ok : Bool
  add_ok : Bool

/-- `CheckControlPropertyPerms`: for the three legacy `ctl.` names first
check `ctl.<value>`; accept when either that or the full `<name>$<value>`
check passes. -/
def CheckControlPropertyPerms (env : ServerEnv) (name value : String) : Bool :=
  (if name = "ctl.start" ∨ name = "ctl.stop" ∨ name = "ctl.restart" then
    env.mac ("ctl." ++ value)
  else false) ∨
  env.mac (name ++ "$" ++ value)

/-- `CheckPermissions`: name legality, then the control-property check for
`ctl.` names, else the MAC check on the name's context followed by the type
check. -/
def CheckPermissions (env : ServerEnv) (name value : String) : PropResult :=
  if ¬IsLegalPropertyName name then PropResult.errInvalidName
  else if StartsWith name "ctl." then
    if ¬CheckControlPropertyPerms env name value then
      PropResult.errHandleControlMessage
    else PropResult.success
  else if ¬env.mac name then PropResult.errPermissionDenied
  else if ¬env.type_ok name value then PropResult.errInvalidValue
  else PropResult.success

/-- `SendControlMessage`: refuse after shutdown (`accept_messages` clear) or
when the send to init fails; on success the `ControlRequest{msg,name,pid}`
goes out on the internal socket. -/
def SendControlMessage (env : ServerEnv) (st : PropState) (msg name : String)
    (pid : Nat) : PropResult × List PropEvent :=
  if ¬st.accept_messages then (PropResult.errHandleControlMessage, [])
  else if ¬env.send_ok then (PropResult.errHandleControlMessage, [])
  else (PropResult.success, [PropEvent.controlMsg msg name pid])

/-- `HandlePropertySet`: after `CheckPermissions`, `ctl.` names are converted
to a control message (name minus the `ctl.` prefix, value as target); the
`sys.powerctl` write is logged with the writer's pid; a non-init writer of a
non-empty `kRestoreconProperty` triggers the asynchronous restorecon worker
instead of a store; everything else goes to `PropertySet`. -/
def HandlePropertySet (env : ServerEnv) (st : PropState) (name value : String)
    (pid : Nat) : PropResult × PropState × List PropEvent :=
  let c := CheckPermissions env name value
  if c ≠ PropResult.success then (c, st, [])
  else if StartsWith name "ctl." then
    let p := SendControlMessage env st (name.drop 4) value pid
    (p.1, st, p.2)
  else
    let logs := if name = "sys.powerctl" then [PropEvent.logPowerctl value pid] else []
    if name = kRestoreconProperty ∧ pid ≠ 1 ∧ value ≠ "" then
      (PropResult.success, st, logs ++ [PropEvent.triggerRestorecon value])
    else
      let p := PropertySet env.add_ok st name value
      (p.1, p.2.1, logs ++ p.2.2)

/-- `AsyncRestorecon::ThreadFunction`: the worker pops each queued path,
runs `selinux_android_restorecon` on it, and only then stores
`kRestoreconProperty = path` as a normal property. -/
def AsyncRestoreconRun : List String → List PropEvent
  | [] => []
  | path :: rest =>
    PropEvent.restoreconDone path :: PropEvent.workerStore path ::
      AsyncRestoreconRun rest

/-! ## Socket framing (`SocketConnection`) -/

/-- `SocketConnection::RecvUint32`: read 4 bytes (little-endian) from the
stream; fail when the connection cannot deliver them within the budget. -/
def RecvUint32 : List Nat → Option (Nat × List Nat)
  | b0 :: b1 :: b2 :: b3 :: rest => some (b0 + 256 * (b1 + 256 * (b2 + 256 * b3)), rest)
  | _ => none

/-- `SocketConnection::RecvChars` via `RecvFully`: read exactly `n` bytes. -/
def RecvChars (n : Nat) (bytes : List Nat) : Option (List Nat × List Nat) :=
  if n ≤ bytes.length then some (bytes.take n, bytes.drop n) else none

/-- `SocketConnection::RecvString`: read the `uint32` length; length 0 yields
the empty string without reading further; a length above `0xffff` is
rejected; otherwise read exactly that many bytes. -/
def RecvString (bytes : List Nat) : Option (List Nat × List Nat) :=
  match RecvUint32 bytes with
  | none => none
  | some (len, rest) =>
    if len = 0 then some ([], rest)
    else if len > 0xffff then none
    else
      match RecvChars len rest with
      | none => none
      | some (chars, rest2) => some (chars, rest2)

/-! ## Concrete instances used by witnesses and counterexamples -/

/-- A freshly constructed service (the `Service` constructor: pid 0, start
order 0, no runtime flags). -/
def baseService : Service :=
  { name := "svc", disabled := false, rc_disabled := false, oneshot := false,
    running := false, restarting := false, console := false, critical := false,
    reset := false, restart := false, disabled_start := false, temporary := false,
    exec := false, pid := 0, start_order := 0, time_started := 0, time_crashed := 0,
    crash_count := 0, process_cgroup_empty := false, pre_apexd := false,
    post_data := false, running_at_post_data_reset := false }

/-- An environment where every OS interaction succeeds and `fork` is not
reached (`fork_result = none`). -/
def envBase : Env :=
  { updatable_delayed := false, console_ok := true, stat_ok := true,
    scon_ok := true, runtime_apex_ready := true, is_post_data := false,
    fork_result := none, now := 0, boottime_unset := false, kill_ok := true,
    is_apex_updatable := false, boot_completed := true }

/-- `envBase` with a successful fork producing child pid `pid`. -/
def envFork (pid : Nat) : Env :=
  { envBase with fork_result := some pid }

/-- A temporary service with a live process (C10 witness). -/
def svcTempW : Service :=
  { baseService with temporary := true, pid := 5, running := true, exec := true }

/-- A non-temporary service with a live process (C10 witness). -/
def svcNonTempW : Service :=
  { baseService with pid := 5, running := true }

/-- A service whose `SVC_RC_DISABLED` flag is set while `SVC_DISABLED` is
clear, as left behind by a successful `Start` of an rc-disabled service
(`Start` clears `SVC_DISABLED` but not `SVC_RC_DISABLED`). -/
def svcRcW : Service :=
  { baseService with rc_disabled := true }

/-- A running non-oneshot service carrying a stale `SVC_RESET` flag, as left
behind by `StopOrReset(RESET)` before the SIGCHLD arrives. -/
def svcRunResetW : Service :=
  { baseService with running := true, reset := true, pid := 7 }

/-- A `SVC_CRITICAL` service with no other flags (C5 scenario). -/
def svcCriticalW : Service := { baseService with critical := true }

/-- Environment of the crash scenario: boot completed, every reap at
boot-time second 10, every fork succeeding with child pid 7 when started. -/
def envCrash : Env := { envBase with now := 10 }

/-- One crash cycle: a successful `Start` (child pid `pid`) followed by the
child's death and `Reap`; the boolean records whether init aborted fatally
during that reap. -/
def crashCycle (env : Env) (pid : Nat) (s : Service) : Service × Bool :=
  let r := Start { env with fork_result := some pid } 1 s
  let p := Reap env r.state
  (p.1, decide (SvcEvent.fatal ∈ p.2))

/-- `n` crash cycles of the critical service, accumulating whether any reap
aborted init. -/
def crashLoop (env : Env) (pid : Nat) : Nat → Service × Bool
  | 0 => (svcCriticalW, false)
  | n + 1 =>
    let p := crashLoop env pid n
    let q := crashCycle env pid p.1
    (q.1, p.2 || q.2)

/-! ## Claim-text transition tables for `StopOrReset` -/

/-- Flag table of claim C1 exactly as the claim states it: the `RESTART` row
only clears `DISABLED` and `RESET` (and the common `RESTARTING` and
`DISABLED_START`), setting nothing.  The kill/publish tail reads as in the
code. -/
def StopOrResetClaimC1 (kill_ok : Bool) (how : Nat) (s : Service) :
    Service × List SvcEvent :=
  let how := if how = SVC_RESET ∨ how = SVC_RESTART then how else SVC_DISABLED
  let s :=
    if how = SVC_DISABLED then
      { s with restarting := false, disabled_start := false, restart := false,
               disabled := true }
    else if how = SVC_RESET then
      { s with restarting := false, disabled_start := false, restart := false,
               disabled := if s.rc_disabled then true else s.disabled,
               reset := if s.rc_disabled then s.reset else true }
    else
      { s with restarting := false, disabled_start := false,
               disabled := false, reset := false }
  if s.pid ≠ 0 then
    let p := KillProcessGroup s SIGKILL kill_ok
    (p.1, p.2 ++ NotifyStateChange p.1 "stopping" false)
  else (s, NotifyStateChange s "stopped" false)

/-- Flag table of claim C1 as amended: identical to `StopOrResetClaimC1`
except that the `RESTART` row additionally sets the `SVC_RESTART` flag (this
is what tells `Reap` to restart the service). -/
def StopOrResetSpecC1 (kill_ok : Bool) (how : Nat) (s : Service) :
    Service × List SvcEvent :=
  let how := if how = SVC_RESET ∨ how = SVC_RESTART then how else SVC_DISABLED
  let s :=
    if how = SVC_DISABLED then
      { s with restarting := false, disabled_start := false, restart := false,
               disabled := true }
    else if how = SVC_RESET then
      { s with restarting := false, disabled_start := false, restart := false,
               disabled := if s.rc_disabled then true else s.disabled,
               reset := if s.rc_disabled then s.reset else true }
    else
      { s with restarting := false, disabled_start := false, restart := true,
               disabled := false, reset := false }
  if s.pid ≠ 0 then
    let p := KillProcessGroup s SIGKILL kill_ok
    (p.1, p.2 ++ NotifyStateChange p.1 "stopping" false)
  else (s, NotifyStateChange s "stopped" false)

/-- An empty property store with persistence and messaging off. -/
def propStateW : PropState :=
  { store := [], persistent_properties_loaded := false, accept_messages := false }

/-- The empty property store with messages accepted (server running). -/
def propMsgStateW : PropState :=
  { propStateW with accept_messages := true }

/-- A 92-byte value, one byte over the legal bound. -/
def longValueW : String := String.mk (List.replicate 92 'a')

/-- A server environment where every MAC and type check passes and every
send succeeds. -/
def envAllowW : ServerEnv :=
  { mac := fun _ => true, type_ok := fun _ _ => true, api_above_q := true,
    send_ok := true, add_ok := true }

/-! ## Reachability of service states under the lifecycle operations -/

/-- One lifecycle operation applied to a service, relating the state before
to the state after.  Every constructor takes the outcomes of the operation's
environment interactions; a successful `fork` returns the child's pid, which
is positive (`hfork`). -/
inductive Step : Service → Service → Prop where
  | start (env : Env) (n : Nat) (s : Service)
      (hfork : ∀ p, env.fork_result = some p → 0 < p) :
      Step s (Start env n s).state
  | execStart (env : Env) (n : Nat) (s : Service)
      (hfork : ∀ p, env.fork_result = some p → 0 < p) :
      Step s (ExecStart env n s).state
  | startIfNotDisabled (env : Env) (n : Nat) (s : Service)
      (hfork : ∀ p, env.fork_result = some p → 0 < p) :
      Step s (StartIfNotDisabled env n s).state
  | enable (env : Env) (n : Nat) (s : Service)
      (hfork : ∀ p, env.fork_result = some p → 0 < p) :
      Step s (Enable env n s).state
  | startIfPostData (env : Env) (n : Nat) (s : Service)
      (hfork : ∀ p, env.fork_result = some p → 0 < p) :
      Step s (StartIfPostData env n s).state
  | restart (env : Env) (n : Nat) (s : Service)
      (hfork : ∀ p, env.fork_result = some p → 0 < p) :
      Step s (Restart env n s).state
  | stopOrReset (kill_ok : Bool) (how : Nat) (s : Service) :
      Step s (StopOrReset kill_ok how s).1
  | resetIfPostData (kill_ok : Bool) (s : Service) :
      Step s (ResetIfPostData kill_ok s).1
  | terminate (kill_ok : Bool) (s : Service) :
      Step s (Terminate kill_ok s).1
  | timeout (kill_ok : Bool) (s : Service) :
      Step s (Timeout kill_ok s).1
  | reap (env : Env) (s : Service) :
      Step s (Reap env s).1

/-- Service states reachable from construction: the `Service` constructor
sets `pid_ = 0` and neither `SVC_RUNNING` nor `SVC_RESTARTING` is among the
configuration flags it receives; every further state comes from a lifecycle
operation. -/
inductive Reachable : Service → Prop where
  | init (s : Service) (hpid : s.pid = 0) (hrun : s.running = false)
      (hres : s.restarting = false) : Reachable s
  | step (s s' : Service) : Reachable s → Step s s' → Reachable s'

/-! ## Helper lemmas -/

theorem killProcessGroup_state (s : Service) (sig : Int) (ok : Bool) :
    (KillProcessGroup s sig ok).1 = s ∨
    (KillProcessGroup s sig ok).1 = { s with process_cgroup_empty := true } := by
  unfold KillProcessGroup
  split
  · exact Or.inl rfl
  · split
    · exact Or.inr rfl
    · exact Or.inl rfl

theorem killProcessGroup_events (s : Service) (sig : Int) (ok : Bool) :
    (KillProcessGroup s sig ok).2 = [] ∨
    (KillProcessGroup s sig ok).2 = [SvcEvent.kill sig] := by
  unfold KillProcessGroup
  split
  · exact Or.inl rfl
  · split <;> exact Or.inr rfl

/-! ## Claim theorems -/

/-- C8: on the SETPROP2 framing, a declared string length of at most 65535
bytes is accepted and read in full, a declared length strictly greater than
65535 makes the receive fail, and a declared length of 0 yields the empty
string. -/
theorem recvString_length_framing (bytes : List Nat) (len : Nat)
    (rest : List Nat) (hlen : RecvUint32 bytes = some (len, rest)) :
    (len = 0 → RecvString bytes = some ([], rest)) ∧
    (len > 65535 → RecvString bytes = none) ∧
    (0 < len → len ≤ 65535 → len ≤ rest.length →
      RecvString bytes = some (rest.take len, rest.drop len)) := by
  have hr : RecvString bytes =
      (if len = 0 then some ([], rest)
      else if len > 0xffff then none
      else
        match RecvChars len rest with
        | none => none
        | some (chars, rest2) => some (chars, rest2)) := by
    unfold RecvString
    rw [hlen]
  refine ⟨fun h0 => ?_, fun hbig => ?_, fun hpos hle hdata => ?_⟩
  · rw [hr, if_pos h0]
  · rw [hr, if_neg (by omega), if_pos (by omega)]
  · rw [hr, if_neg (by omega), if_neg (by omega)]
    unfold RecvChars
    rw [if_pos hdata]

/-- Witness for C8 at the boundary: a frame declaring 65535 bytes is read in
full, one declaring 65536 is rejected, one declaring 0 yields the empty
string. -/
theorem recvString_length_framing_witness :
    RecvString (255 :: 255 :: 0 :: 0 :: List.replicate 65535 7) =
      some (List.replicate 65535 7, []) ∧
    RecvString [0, 0, 1, 0] = none ∧
    RecvString [0, 0, 0, 0] = some ([], []) := by
  refine ⟨?_, ?_, ?_⟩
  · have h := (recvString_length_framing (255 :: 255 :: 0 :: 0 :: List.replicate 65535 7)
      65535 (List.replicate 65535 7) rfl).2.2 (by norm_num) (by norm_num)
      (List.length_replicate 65535 7).ge
    rw [List.take_replicate, List.drop_replicate, Nat.min_self, Nat.sub_self,
      List.replicate_zero] at h
    exact h
  · exact (recvString_length_framing [0, 0, 1, 0] 65536 [] rfl).2.1 (by norm_num)
  · exact (recvString_length_framing [0, 0, 0, 0] 0 [] rfl).1 rfl

theorem reapCrashPolicy_frame (env : Env) (s : Service) :
    ∃ c t, (ReapCrashPolicy env s).1 = { s with crash_count := c, time_crashed := t } := by
  unfold ReapCrashPolicy
  dsimp only
  split_ifs <;> exact ⟨_, _, rfl⟩

theorem reapNonTemporary_reset (env : Env) (s : Service) :
    (ReapNonTemporary env s).1.pid = 0 ∧
    (ReapNonTemporary env s).1.running = false ∧
    (ReapNonTemporary env s).1.start_order = 0 := by
  unfold ReapNonTemporary
  dsimp only
  obtain ⟨c, t, hq⟩ := reapCrashPolicy_frame env
    { s with pid := 0, running := false, start_order := 0 }
  obtain ⟨c', t', hq'⟩ := reapCrashPolicy_frame env
    { s with pid := 0, running := false, start_order := 0, disabled := true }
  split_ifs <;> simp_all

/-- C10: `Reap` on a `SVC_TEMPORARY` service returns after clearing
`SVC_EXEC`: pid, `SVC_RUNNING`, `start_order_` and every other flag are
unchanged and no state property is published; on a non-temporary service
`Reap` zeroes the pid, clears `SVC_RUNNING` and resets `start_order_`. -/
theorem reap_temporary_frame (env : Env) (s : Service) :
    ∀ s' ev, Reap env s = (s', ev) →
      (s.temporary = true →
        s'.pid = s.pid ∧
        s'.running = s.running ∧
        s'.start_order = s.start_order ∧
        s'.disabled = s.disabled ∧
        s'.rc_disabled = s.rc_disabled ∧
        s'.oneshot = s.oneshot ∧
        s'.restarting = s.restarting ∧
        s'.console = s.console ∧
        s'.critical = s.critical ∧
        s'.reset = s.reset ∧
        s'.restart = s.restart ∧
        s'.disabled_start = s.disabled_start ∧
        s'.temporary = s.temporary ∧
        s'.exec = false ∧
        (∀ n v, SvcEvent.publish n v ∉ ev)) ∧
      (s.temporary = false →
        s'.pid = 0 ∧ s'.running = false ∧ s'.start_order = 0) := by
  intro s' ev h
  unfold Reap at h
  dsimp only at h
  generalize hp : (if ¬s.oneshot = true ∨ s.restart = true
      then KillProcessGroup s SIGKILL env.kill_ok else (s, [])) = p at h
  obtain ⟨s0, ev0⟩ := p
  have hs0 : s0 = s ∨ s0 = { s with process_cgroup_empty := true } := by
    split at hp
    · have h1 := killProcessGroup_state s SIGKILL env.kill_ok
      rw [hp] at h1
      exact h1
    · left
      exact (Prod.mk.injEq .. ▸ hp.symm).1
  have hev0 : ev0 = [] ∨ ev0 = [SvcEvent.kill SIGKILL] := by
    split at hp
    · have h2 := killProcessGroup_events s SIGKILL env.kill_ok
      rw [hp] at h2
      exact h2
    · left
      exact (Prod.mk.injEq .. ▸ hp.symm).2
  dsimp only at h
  split at h
  case isTrue htmp =>
    obtain ⟨rfl, rfl⟩ := Prod.mk.injEq .. ▸ h
    have hst : s.temporary = true := by
      rcases hs0 with h1 | h1 <;> simp_all
    constructor
    · intro _
      rcases hs0 with h1 | h1 <;> rcases hev0 with h2 | h2 <;> subst h1 <;> subst h2 <;>
        simp_all
    · intro ht
      rw [ht] at hst
      cases hst
  case isFalse htmp =>
    obtain ⟨rfl, rfl⟩ := Prod.mk.injEq .. ▸ h
    have hst : s.temporary = false := by
      rcases hs0 with h1 | h1 <;> simp_all
    constructor
    · intro ht
      rw [ht] at hst
      cases hst
    · intro _
      exact reapNonTemporary_reset env _

/-- Witness for C10 at a concrete temporary and a concrete non-temporary
service. -/
theorem reap_temporary_frame_witness :
    (Reap envBase svcTempW).1.pid = 5 ∧ (Reap envBase svcNonTempW).1.pid = 0 := by
  constructor
  · exact ((reap_temporary_frame envBase svcTempW (Reap envBase svcTempW).1
      (Reap envBase svcTempW).2 rfl).1 rfl).1
  · exact ((reap_temporary_frame envBase svcNonTempW (Reap envBase svcNonTempW).1
      (Reap envBase svcNonTempW).2 rfl).2 rfl).1

/-- Counterexample to C1 as stated: on a fresh service with no process,
`StopOrReset(SVC_RESTART)` leaves the `SVC_RESTART` flag set (the code does
`flags_ |= how`), while the claim's table clears flags only, so the claimed
result state differs from the code's. -/
theorem stopOrReset_claim_counterexample :
    (StopOrReset true SVC_RESTART baseService).1.restart = true ∧
    (StopOrResetClaimC1 true SVC_RESTART baseService).1.restart = false ∧
    (StopOrReset true SVC_RESTART baseService).1 ≠
      (StopOrResetClaimC1 true SVC_RESTART baseService).1 := by
  refine ⟨rfl, rfl, ?_⟩
  decide

/-- C1 (amended): `StopOrReset` behaves exactly as the claim's table with the
`RESTART` row additionally setting `SVC_RESTART`; afterwards, with a live
pid the process group is SIGKILLed (`KillProcessGroup`, skipped when the
cgroup is already empty) and `stopping` is published via
`NotifyStateChange` (skipped for temporary services), else `stopped`. -/
theorem stopOrReset_matches_spec_table (kill_ok : Bool) (how : Nat) (s : Service) :
    StopOrReset kill_ok how s = StopOrResetSpecC1 kill_ok how s := by
  obtain ⟨nm, d, rc, os, ru, rs, co, cr, re, ra, ds, tp, ex, pid, so, ts, tc,
    cc, pce, pa, pd, rp⟩ := s
  by_cases h1 : how = SVC_DISABLED
  · subst h1
    cases rc <;> rfl
  · by_cases h2 : how = SVC_RESET
    · subst h2
      cases rc <;> rfl
    · by_cases h3 : how = SVC_RESTART
      · subst h3
        cases rc <;> rfl
      · unfold StopOrReset StopOrResetSpecC1
        dsimp only
        rw [if_pos (show how ≠ SVC_DISABLED ∧ how ≠ SVC_RESET ∧ how ≠ SVC_RESTART from
          ⟨h1, h2, h3⟩)]
        rw [if_neg (show ¬(how = SVC_RESET ∨ how = SVC_RESTART) from by tauto)]
        cases rc <;> rfl

/-- Counterexample to C9 as stated: a service with `SVC_RC_DISABLED` set but
`SVC_DISABLED` clear (reachable, since `Start` clears `SVC_DISABLED` without
touching `SVC_RC_DISABLED`); `Enable` clears `SVC_RC_DISABLED`, so it is not
a no-op. -/
theorem enable_claim_counterexample :
    svcRcW.disabled = false ∧ (Enable envBase 0 svcRcW).state ≠ svcRcW := by
  refine ⟨rfl, ?_⟩
  decide

/-- C9 (amended): on a service whose `SVC_DISABLED`, `SVC_RC_DISABLED` and
`SVC_DISABLED_START` flags are all clear, `Enable` is a no-op: the state,
the start-order counter and the event list are unchanged and `Start` is not
called (the result does not depend on any environment outcome). -/
theorem enable_noop_when_fully_enabled (env : Env) (next_order : Nat) (s : Service)
    (hd : s.disabled = false) (hrc : s.rc_disabled = false)
    (hds : s.disabled_start = false) :
    Enable env next_order s = ⟨s, next_order, true, []⟩ := by
  obtain ⟨nm, d, rc, os, ru, rs, co, cr, re, ra, ds, tp, ex, pid, so, ts, tc,
    cc, pce, pa, pd, rp⟩ := s
  subst hd
  subst hrc
  subst hds
  rfl

/-- Witness for C9 (amended) on a fresh service. -/
theorem enable_noop_when_fully_enabled_witness :
    Enable envBase 3 baseService = ⟨baseService, 3, true, []⟩ :=
  enable_noop_when_fully_enabled envBase 3 baseService rfl rfl rfl

/-- Counterexample to C6 as stated: `Start` on a running non-oneshot service
that carries a stale `SVC_RESET` flag succeeds but clears that flag, so it
is not a no-op on the service state. -/
theorem start_running_claim_counterexample :
    svcRunResetW.running = true ∧
    (Start envBase 0 svcRunResetW).ok = true ∧
    (Start envBase 0 svcRunResetW).state ≠ svcRunResetW := by
  refine ⟨rfl, rfl, ?_⟩
  decide

/-- C6 (amended): on a running service that is not an updatable service
awaiting the services-updated mark, `Start` returns success without forking
(no fork outcome is consulted, the counter and events are unchanged); it
clears `DISABLED`, `RESTARTING`, `RESET`, `RESTART` and `DISABLED_START`,
and for a ONESHOT service that had `DISABLED` or `RESET` set at entry it
sets `SVC_RESTART` so that `Reap` triggers a restart. -/
theorem start_on_running_service (env : Env) (next_order : Nat) (s : Service)
    (hu : env.updatable_delayed = false) (hr : s.running = true) :
    Start env next_order s =
      ⟨{ s with disabled := false, restarting := false, reset := false,
                disabled_start := false,
                restart := s.oneshot && (s.disabled || s.reset) },
       next_order, true, []⟩ := by
  obtain ⟨nm, d, rc, os, ru, rs, co, cr, re, ra, ds, tp, ex, pid, so, ts, tc,
    cc, pce, pa, pd, rp⟩ := s
  subst hr
  unfold Start
  rw [hu]
  cases os <;> cases d <;> cases re <;> rfl

/-- Witness for C6 (amended): `Start` on the running service with the stale
`SVC_RESET` flag succeeds and only clears that flag. -/
theorem start_on_running_service_witness :
    Start envBase 2 svcRunResetW =
      ⟨{ svcRunResetW with reset := false }, 2, true, []⟩ :=
  start_on_running_service envBase 2 svcRunResetW rfl rfl

theorem stopOrReset_pid_running (kill_ok : Bool) (how : Nat) (s : Service) :
    (StopOrReset kill_ok how s).1.pid = s.pid ∧
    (StopOrReset kill_ok how s).1.running = s.running := by
  obtain ⟨nm, d, rc, os, ru, rs, co, cr, re, ra, ds, tp, ex, pid, so, ts, tc,
    cc, pce, pa, pd, rp⟩ := s
  by_cases h1 : how = SVC_DISABLED
  · subst h1
    cases rc <;> cases pce <;> cases kill_ok <;> by_cases hp : pid = 0 <;>
      simp [StopOrReset, KillProcessGroup, SVC_DISABLED, SVC_RESET, SVC_RESTART, hp]
  · by_cases h2 : how = SVC_RESET
    · subst h2
      cases rc <;> cases pce <;> cases kill_ok <;> by_cases hp : pid = 0 <;>
        simp [StopOrReset, KillProcessGroup, SVC_DISABLED, SVC_RESET, SVC_RESTART, hp]
    · by_cases h3 : how = SVC_RESTART
      · subst h3
        cases rc <;> cases pce <;> cases kill_ok <;> by_cases hp : pid = 0 <;>
          simp [StopOrReset, KillProcessGroup, SVC_DISABLED, SVC_RESET, SVC_RESTART, hp]
      · unfold StopOrReset
        dsimp only
        rw [if_pos (show how ≠ SVC_DISABLED ∧ how ≠ SVC_RESET ∧ how ≠ SVC_RESTART from
          ⟨h1, h2, h3⟩)]
        cases rc <;> cases pce <;> cases kill_ok <;> by_cases hp : pid = 0 <;>
          simp [SVC_DISABLED, SVC_RESET, SVC_RESTART, KillProcessGroup, hp]

theorem terminate_pid_running (kill_ok : Bool) (s : Service) :
    (Terminate kill_ok s).1.pid = s.pid ∧
    (Terminate kill_ok s).1.running = s.running := by
  obtain ⟨nm, d, rc, os, ru, rs, co, cr, re, ra, ds, tp, ex, pid, so, ts, tc,
    cc, pce, pa, pd, rp⟩ := s
  unfold Terminate KillProcessGroup
  dsimp only
  split_ifs <;> exact ⟨rfl, rfl⟩

theorem timeout_pid_running (kill_ok : Bool) (s : Service) :
    (Timeout kill_ok s).1.pid = s.pid ∧
    (Timeout kill_ok s).1.running = s.running := by
  obtain ⟨nm, d, rc, os, ru, rs, co, cr, re, ra, ds, tp, ex, pid, so, ts, tc,
    cc, pce, pa, pd, rp⟩ := s
  unfold Timeout KillProcessGroup
  dsimp only
  split_ifs <;> exact ⟨rfl, rfl⟩

theorem resetIfPostData_pid_running (kill_ok : Bool) (s : Service) :
    (ResetIfPostData kill_ok s).1.pid = s.pid ∧
    (ResetIfPostData kill_ok s).1.running = s.running := by
  unfold ResetIfPostData
  dsimp only
  split_ifs with h1 h2
  · have h := stopOrReset_pid_running kill_ok SVC_RESET
      { s with running_at_post_data_reset := true }
    exact ⟨h.1, h.2⟩
  · exact stopOrReset_pid_running kill_ok SVC_RESET s
  · exact ⟨rfl, rfl⟩

theorem reap_state_shape (env : Env) (s : Service) :
    ∀ s' ev, Reap env s = (s', ev) →
      (s'.pid = s.pid ∧ s'.running = s.running) ∨
      (s'.pid = 0 ∧ s'.running = false) := by
  intro s' ev h
  unfold Reap at h
  dsimp only at h
  generalize hp : (if ¬s.oneshot = true ∨ s.restart = true
      then KillProcessGroup s SIGKILL env.kill_ok else (s, [])) = p at h
  obtain ⟨s0, ev0⟩ := p
  have hs0 : s0 = s ∨ s0 = { s with process_cgroup_empty := true } := by
    split at hp
    · have h1 := killProcessGroup_state s SIGKILL env.kill_ok
      rw [hp] at h1
      exact h1
    · left
      exact (Prod.mk.injEq .. ▸ hp.symm).1
  dsimp only at h
  split at h
  · obtain ⟨rfl, rfl⟩ := Prod.mk.injEq .. ▸ h
    left
    rcases hs0 with h1 | h1 <;> subst h1 <;> exact ⟨rfl, rfl⟩
  · obtain ⟨rfl, rfl⟩ := Prod.mk.injEq .. ▸ h
    right
    exact ⟨(reapNonTemporary_reset env _).1, (reapNonTemporary_reset env _).2.1⟩

theorem runningPidInv_start (env : Env) (n : Nat) (s : Service)
    (hfork : ∀ p, env.fork_result = some p → 0 < p)
    (hinv : s.running = true ↔ 0 < s.pid) :
    ((Start env n s).state.running = true ↔ 0 < (Start env n s).state.pid) := by
  obtain ⟨nm, d, rc, os, ru, rs, co, cr, re, ra, ds, tp, ex, pid, so, ts, tc,
    cc, pce, pa, pd, rp⟩ := s
  cases hfr : env.fork_result with
  | none =>
    unfold Start
    rw [hfr]
    dsimp only
    split_ifs <;> simp_all
  | some p =>
    have hp := hfork p hfr
    unfold Start
    rw [hfr]
    dsimp only
    split_ifs <;> simp_all

theorem runningPidInv_execStart (env : Env) (n : Nat) (s : Service)
    (hfork : ∀ p, env.fork_result = some p → 0 < p)
    (hinv : s.running = true ↔ 0 < s.pid) :
    ((ExecStart env n s).state.running = true ↔ 0 < (ExecStart env n s).state.pid) := by
  have h := runningPidInv_start env n { s with oneshot := true } hfork (by simpa using hinv)
  unfold ExecStart
  dsimp only
  split_ifs <;> simp_all

theorem runningPidInv_startIfNotDisabled (env : Env) (n : Nat) (s : Service)
    (hfork : ∀ p, env.fork_result = some p → 0 < p)
    (hinv : s.running = true ↔ 0 < s.pid) :
    ((StartIfNotDisabled env n s).state.running = true ↔
      0 < (StartIfNotDisabled env n s).state.pid) := by
  have h := runningPidInv_start env n s hfork hinv
  unfold StartIfNotDisabled
  split_ifs <;> simp_all

theorem runningPidInv_enable (env : Env) (n : Nat) (s : Service)
    (hfork : ∀ p, env.fork_result = some p → 0 < p)
    (hinv : s.running = true ↔ 0 < s.pid) :
    ((Enable env n s).state.running = true ↔ 0 < (Enable env n s).state.pid) := by
  have h := runningPidInv_start env n { s with disabled := false, rc_disabled := false }
    hfork (by simpa using hinv)
  unfold Enable
  dsimp only
  split_ifs <;> simp_all

theorem runningPidInv_startIfPostData (env : Env) (n : Nat) (s : Service)
    (hfork : ∀ p, env.fork_result = some p → 0 < p)
    (hinv : s.running = true ↔ 0 < s.pid) :
    ((StartIfPostData env n s).state.running = true ↔
      0 < (StartIfPostData env n s).state.pid) := by
  have h := runningPidInv_start env n s hfork hinv
  unfold StartIfPostData
  split_ifs <;> simp_all

theorem runningPidInv_restart (env : Env) (n : Nat) (s : Service)
    (hfork : ∀ p, env.fork_result = some p → 0 < p)
    (hinv : s.running = true ↔ 0 < s.pid) :
    ((Restart env n s).state.running = true ↔ 0 < (Restart env n s).state.pid) := by
  have h1 := runningPidInv_start env n s hfork hinv
  have h2 := stopOrReset_pid_running env.kill_ok SVC_RESTART s
  unfold Restart
  dsimp only
  split_ifs <;> simp_all

theorem runningPidInv_reap (env : Env) (s : Service)
    (hinv : s.running = true ↔ 0 < s.pid) :
    ((Reap env s).1.running = true ↔ 0 < (Reap env s).1.pid) := by
  rcases reap_state_shape env s (Reap env s).1 (Reap env s).2 rfl with ⟨h1, h2⟩ | ⟨h1, h2⟩ <;>
    rw [h1, h2] <;> simp_all

theorem runningPidInv_step (s s' : Service) (hst : Step s s')
    (hinv : s.running = true ↔ 0 < s.pid) :
    s'.running = true ↔ 0 < s'.pid := by
  cases hst with
  | start env n s hfork => exact runningPidInv_start env n s hfork hinv
  | execStart env n s hfork => exact runningPidInv_execStart env n s hfork hinv
  | startIfNotDisabled env n s hfork =>
      exact runningPidInv_startIfNotDisabled env n s hfork hinv
  | enable env n s hfork => exact runningPidInv_enable env n s hfork hinv
  | startIfPostData env n s hfork => exact runningPidInv_startIfPostData env n s hfork hinv
  | restart env n s hfork => exact runningPidInv_restart env n s hfork hinv
  | stopOrReset kill_ok how s =>
      have h := stopOrReset_pid_running kill_ok how s
      rw [h.1, h.2]
      exact hinv
  | resetIfPostData kill_ok s =>
      have h := resetIfPostData_pid_running kill_ok s
      rw [h.1, h.2]
      exact hinv
  | terminate kill_ok s =>
      have h := terminate_pid_running kill_ok s
      rw [h.1, h.2]
      exact hinv
  | timeout kill_ok s =>
      have h := timeout_pid_running kill_ok s
      rw [h.1, h.2]
      exact hinv
  | reap env s => exact runningPidInv_reap env s hinv

theorem reachable_runningPidInv (s : Service) (h : Reachable s) :
    s.running = true ↔ 0 < s.pid := by
  induction h with
  | init s hpid hrun hres =>
      rw [hpid, hrun]
      simp
  | step s s' _ hst ih => exact runningPidInv_step s s' hst ih

/-- C3: in every service state reachable from construction through the
lifecycle operations, `SVC_RUNNING` implies a positive pid, and a positive
pid implies `SVC_RUNNING` or `SVC_RESTARTING`. -/
theorem service_running_pid_invariant (s : Service) (h : Reachable s) :
    (s.running = true → 0 < s.pid) ∧
    (0 < s.pid → s.running = true ∨ s.restarting = true) := by
  have hinv := reachable_runningPidInv s h
  exact ⟨hinv.mp, fun hp => Or.inl (hinv.mpr hp)⟩

/-- Witness for C3: the invariant at a freshly constructed service and at
the state after a successful `Start` of it. -/
theorem service_running_pid_invariant_witness :
    ((Start (envFork 7) 1 baseService).state.running = true →
      0 < (Start (envFork 7) 1 baseService).state.pid) ∧
    (0 < (Start (envFork 7) 1 baseService).state.pid →
      (Start (envFork 7) 1 baseService).state.running = true ∨
      (Start (envFork 7) 1 baseService).state.restarting = true) :=
  service_running_pid_invariant (Start (envFork 7) 1 baseService).state
    (Reachable.step baseService (Start (envFork 7) 1 baseService).state
      (Reachable.init baseService rfl rfl rfl)
      (Step.start (envFork 7) 1 baseService (by
        intro p hp
        cases hp
        norm_num)))

theorem notifyStateChange_no_fatal (s : Service) (st : String) (b : Bool) :
    SvcEvent.fatal ∉ NotifyStateChange s st b := by
  unfold NotifyStateChange
  split_ifs <;> simp

theorem reapCrashPolicy_cases (env : Env) (s : Service)
    (hcu : s.critical = true ∨ (s.pre_apexd = false ∧ env.is_apex_updatable = true))
    (hra : s.restart = false) :
    ((env.now < s.time_crashed + fourMinutes ∨ ¬env.boot_completed = true) →
      ReapCrashPolicy env s =
        (if 4 < s.crash_count + 1 then
          if s.critical = true then
            ({ s with crash_count := s.crash_count + 1 }, [SvcEvent.fatal], true)
          else
            ({ s with crash_count := s.crash_count + 1 },
             [SvcEvent.publish "ro.init.updatable_crashing" "1"], false)
        else ({ s with crash_count := s.crash_count + 1 }, [], false))) ∧
    (¬(env.now < s.time_crashed + fourMinutes ∨ ¬env.boot_completed = true) →
      ReapCrashPolicy env s =
        ({ s with time_crashed := env.now, crash_count := 1 }, [], false)) := by
  have hcond : (s.critical = true ∨ (¬s.pre_apexd = true ∧ env.is_apex_updatable = true)) ∧
      ¬s.restart = true := by
    constructor
    · rcases hcu with h | ⟨h1, h2⟩
      · exact Or.inl h
      · exact Or.inr ⟨by simp [h1], h2⟩
    · simp [hra]
  constructor <;> intro hw <;> unfold ReapCrashPolicy <;> dsimp only <;>
    rw [if_pos hcond]
  · rw [if_pos hw]
  · rw [if_neg hw]

theorem reapNonTemporary_crash (env : Env) (s : Service)
    (hos : s.oneshot = false) (hra : s.restart = false)
    (hd : s.disabled = false) (hre : s.reset = false)
    (hcu : s.critical = true ∨ (s.pre_apexd = false ∧ env.is_apex_updatable = true)) :
    ((env.now < s.time_crashed + fourMinutes ∨ ¬env.boot_completed = true) →
      (ReapNonTemporary env s).1.crash_count = s.crash_count + 1 ∧
      (4 < s.crash_count + 1 →
        (s.critical = true → (ReapNonTemporary env s).2 = [SvcEvent.fatal]) ∧
        (s.critical = false →
          SvcEvent.publish "ro.init.updatable_crashing" "1" ∈ (ReapNonTemporary env s).2)) ∧
      (¬4 < s.crash_count + 1 → SvcEvent.fatal ∉ (ReapNonTemporary env s).2)) ∧
    (¬(env.now < s.time_crashed + fourMinutes ∨ ¬env.boot_completed = true) →
      (ReapNonTemporary env s).1.crash_count = 1 ∧
      (ReapNonTemporary env s).1.time_crashed = env.now ∧
      SvcEvent.fatal ∉ (ReapNonTemporary env s).2) := by
  obtain ⟨nm, d, rc, os, ru, rs, co, cr, re, ra, ds, tp, ex, pid, so, ts, tc,
    cc, pce, pa, pd, rp⟩ := s
  dsimp only at hos hra hd hre hcu ⊢
  subst hos
  subst hra
  subst hd
  subst hre
  have hcp := reapCrashPolicy_cases env
    { name := nm, disabled := false, rc_disabled := rc, oneshot := false,
      running := false, restarting := rs, console := co, critical := cr,
      reset := false, restart := false, disabled_start := ds, temporary := tp,
      exec := ex, pid := 0, start_order := 0, time_started := ts,
      time_crashed := tc, crash_count := cc, process_cgroup_empty := pce,
      pre_apexd := pa, post_data := pd, running_at_post_data_reset := rp }
    (by exact hcu) rfl
  constructor <;> intro hw
  · by_cases hcnt : 4 < cc + 1 <;> cases cr <;>
      simp [ReapNonTemporary, hcp.1 hw, hcnt, notifyStateChange_no_fatal]
  · simp [ReapNonTemporary, hcp.2 hw, notifyStateChange_no_fatal]

/-- C5: on a `Reap` that reaches the crash policy (non-temporary,
non-oneshot, not manually restarted, not disabled/reset) of a CRITICAL or
updatable service: a crash inside the four-minute window or before boot
completion increments `crash_count_`, and when the incremented count
exceeds 4 a critical service aborts init while an updatable one publishes
`ro.init.updatable_crashing = 1`; outside the window `time_crashed_` is set
to now and `crash_count_` to 1.  Concretely, 4 rapid crashes of a critical
service are survived and the 5th aborts init. -/
theorem reap_crash_policy (env : Env) (s : Service)
    (htmp : s.temporary = false) (hos : s.oneshot = false) (hra : s.restart = false)
    (hd : s.disabled = false) (hre : s.reset = false)
    (hcu : s.critical = true ∨ (s.pre_apexd = false ∧ env.is_apex_updatable = true)) :
    (∀ s' ev, Reap env s = (s', ev) →
      ((env.now < s.time_crashed + fourMinutes ∨ ¬env.boot_completed = true) →
        s'.crash_count = s.crash_count + 1 ∧
        (4 < s.crash_count + 1 →
          (s.critical = true → SvcEvent.fatal ∈ ev) ∧
          (s.critical = false →
            SvcEvent.publish "ro.init.updatable_crashing" "1" ∈ ev)) ∧
        (s.crash_count + 1 ≤ 4 → SvcEvent.fatal ∉ ev)) ∧
      (¬(env.now < s.time_crashed + fourMinutes ∨ ¬env.boot_completed = true) →
        s'.crash_count = 1 ∧ s'.time_crashed = env.now ∧ SvcEvent.fatal ∉ ev)) ∧
    ((crashLoop envCrash 7 4).2 = false ∧ (crashLoop envCrash 7 5).2 = true) := by
  constructor
  · intro s' ev h
    unfold Reap at h
    dsimp only at h
    rw [if_pos (show ¬s.oneshot = true ∨ s.restart = true from Or.inl (by simp [hos]))] at h
    generalize hp : KillProcessGroup s SIGKILL env.kill_ok = p at h
    obtain ⟨s0, ev0⟩ := p
    have hs0 : s0 = s ∨ s0 = { s with process_cgroup_empty := true } := by
      have h1 := killProcessGroup_state s SIGKILL env.kill_ok
      rw [hp] at h1
      exact h1
    have hev0 : ev0 = [] ∨ ev0 = [SvcEvent.kill SIGKILL] := by
      have h2 := killProcessGroup_events s SIGKILL env.kill_ok
      rw [hp] at h2
      exact h2
    rcases hs0 with rfl | rfl
    · dsimp only at h
      rw [if_neg (by simp [htmp])] at h
      obtain ⟨rfl, rfl⟩ := Prod.mk.injEq .. ▸ h
      have hnt := reapNonTemporary_crash env { s0 with exec := false } (by exact hos) (by exact hra)
        (by exact hd) (by exact hre) (by exact hcu)
      constructor
      · intro hw
        have ha := hnt.1 (by exact hw)
        refine ⟨ha.1, fun h4 => ⟨fun hc => ?_, fun hc => ?_⟩, fun hle => ?_⟩
        · rw [(ha.2.1 (by exact h4)).1 (by exact hc)]
          exact List.mem_append_right _ (by simp)
        · exact List.mem_append_right _ ((ha.2.1 (by exact h4)).2 (by exact hc))
        · intro hmem
          rcases List.mem_append.mp hmem with hm | hm
          · rcases hev0 with rfl | rfl <;> simp_all
          · exact ha.2.2 (by dsimp only; omega) hm
      · intro hw
        have hb := hnt.2 (by exact hw)
        refine ⟨hb.1, hb.2.1, fun hmem => ?_⟩
        rcases List.mem_append.mp hmem with hm | hm
        · rcases hev0 with rfl | rfl <;> simp_all
        · exact hb.2.2 hm
    · dsimp only at h
      rw [if_neg (by simp [htmp])] at h
      obtain ⟨rfl, rfl⟩ := Prod.mk.injEq .. ▸ h
      have hnt := reapNonTemporary_crash env { s with process_cgroup_empty := true, exec := false } (by exact hos) (by exact hra)
        (by exact hd) (by exact hre) (by exact hcu)
      constructor
      · intro hw
        have ha := hnt.1 (by exact hw)
        refine ⟨ha.1, fun h4 => ⟨fun hc => ?_, fun hc => ?_⟩, fun hle => ?_⟩
        · rw [(ha.2.1 (by exact h4)).1 (by exact hc)]
          exact List.mem_append_right _ (by simp)
        · exact List.mem_append_right _ ((ha.2.1 (by exact h4)).2 (by exact hc))
        · intro hmem
          rcases List.mem_append.mp hmem with hm | hm
          · rcases hev0 with rfl | rfl <;> simp_all
          · exact ha.2.2 (by dsimp only; omega) hm
      · intro hw
        have hb := hnt.2 (by exact hw)
        refine ⟨hb.1, hb.2.1, fun hmem => ?_⟩
        rcases List.mem_append.mp hmem with hm | hm
        · rcases hev0 with rfl | rfl <;> simp_all
        · exact hb.2.2 hm
  · constructor <;> decide

/-- Witness for C5: a critical service with four prior crashes in the
window aborts init on the next reap. -/
theorem reap_crash_policy_witness :
    SvcEvent.fatal ∈ (Reap envCrash { svcCriticalW with crash_count := 4 }).2 := by
  have h := (reap_crash_policy envCrash { svcCriticalW with crash_count := 4 }
    rfl rfl rfl rfl rfl (Or.inl rfl)).1
    (Reap envCrash { svcCriticalW with crash_count := 4 }).1
    (Reap envCrash { svcCriticalW with crash_count := 4 }).2 rfl
  exact ((h.1 (Or.inl (by decide))).2.1 (by decide)).1 rfl

theorem findProp_update_ne (store : List (String × String)) (n v name : String)
    (hne : n ≠ name) : findProp (updateProp store n v) name = findProp store name := by
  induction store with
  | nil => rfl
  | cons x rest ih =>
    by_cases hx : x.1 = n <;> by_cases hxn : x.1 = name <;>
      simp_all [findProp, updateProp, List.find?_cons_of_pos, List.find?_cons_of_neg]

theorem findProp_append_some (store l : List (String × String)) (name w : String)
    (h : findProp store name = some w) : findProp (store ++ l) name = some w := by
  unfold findProp at h ⊢
  rw [List.find?_append]
  cases hfind : store.find? (fun p => p.1 = name) with
  | none =>
    rw [hfind] at h
    simp at h
  | some x =>
    rw [hfind] at h
    simpa using h

theorem findProp_append_self (store : List (String × String)) (name v : String)
    (h : findProp store name = none) :
    findProp (store ++ [(name, v)]) name = some v := by
  unfold findProp at h ⊢
  rw [List.find?_append]
  cases hfind : store.find? (fun p => p.1 = name) with
  | none => simp
  | some x =>
    rw [hfind] at h
    simp at h

theorem findProp_ro_stable (a : Bool) (st : PropState) (m v name w : String)
    (hro : StartsWith name "ro." = true)
    (h : findProp st.store name = some w) :
    findProp (PropertySet a st m v).2.1.store name = some w := by
  by_cases h1 : IsLegalPropertyName m = true
  · by_cases h2 : IsLegalPropertyValue m v = true
    · cases hm : findProp st.store m with
      | some u =>
        by_cases h3 : StartsWith m "ro." = true
        · simpa [PropertySet, h1, h2, hm, h3] using h
        · have hne : m ≠ name := fun he => h3 (he ▸ hro)
          simpa [PropertySet, h1, h2, hm, h3, findProp_update_ne _ _ _ _ hne] using h
      | none =>
        cases a with
        | true => simp [PropertySet, h1, h2, hm, findProp_append_some, h]
        | false => simpa [PropertySet, h1, h2, hm] using h
    · simpa [PropertySet, h1, h2] using h
  · simpa [PropertySet, h1] using h

theorem findProp_ro_stable_many (ops : List (Bool × String × String)) (st : PropState)
    (name w : String) (hro : StartsWith name "ro." = true)
    (h : findProp st.store name = some w) :
    findProp (applySets st ops).store name = some w := by
  induction ops generalizing st with
  | nil => exact h
  | cons op rest ih =>
    obtain ⟨a, m, v⟩ := op
    exact ih _ (findProp_ro_stable a st m v name w hro h)

theorem propertySet_ro_success (a : Bool) (st : PropState) (n v : String)
    (hro : StartsWith n "ro." = true)
    (h : (PropertySet a st n v).1 = PropResult.success) :
    IsLegalPropertyName n = true ∧
    findProp (PropertySet a st n v).2.1.store n = some v := by
  by_cases h1 : IsLegalPropertyName n = true
  · by_cases h2 : IsLegalPropertyValue n v = true
    · cases hm : findProp st.store n with
      | some u => simp [PropertySet, h1, h2, hm, hro] at h
      | none =>
        cases a with
        | true =>
          exact ⟨h1, by simp [PropertySet, h1, h2, hm, findProp_append_self, hm]⟩
        | false => simp [PropertySet, h1, h2, hm] at h
    · simp [PropertySet, h1, h2] at h
  · simp [PropertySet, h1] at h

/-- Counterexample to C2 as stated: after a successful Set of `ro.foo`, a
subsequent Set of `ro.foo` with a 92-byte value returns `InvalidValue`
(the value-legality check runs before the write-once check), not
`ReadOnlyAlready`. -/
theorem ro_write_once_claim_counterexample :
    (PropertySet true propStateW "ro.foo" "1").1 = PropResult.success ∧
    (PropertySet true (PropertySet true propStateW "ro.foo" "1").2.1
      "ro.foo" longValueW).1 = PropResult.errInvalidValue ∧
    PropResult.errInvalidValue ≠ PropResult.errReadOnly := by
  refine ⟨by decide, by decide, by decide⟩

/-- C2 (amended): after a successful Set of an `ro.`-prefixed name `n`, any
subsequent Set of `n` (after arbitrary further set operations) whose value
passes the value-legality check returns `ReadOnlyAlready`, and the stored
value of `n` stays the one of the first successful Set. -/
theorem ro_write_once (a : Bool) (st : PropState) (n v : String)
    (ops : List (Bool × String × String)) (a2 : Bool) (v2 : String)
    (hro : StartsWith n "ro." = true)
    (hset : (PropertySet a st n v).1 = PropResult.success)
    (hv2 : IsLegalPropertyValue n v2 = true) :
    (PropertySet a2 (applySets (PropertySet a st n v).2.1 ops) n v2).1 =
      PropResult.errReadOnly ∧
    (PropertySet a2 (applySets (PropertySet a st n v).2.1 ops) n v2).2.1 =
      applySets (PropertySet a st n v).2.1 ops ∧
    findProp (applySets (PropertySet a st n v).2.1 ops).store n = some v := by
  obtain ⟨h1, hfind⟩ := propertySet_ro_success a st n v hro hset
  have hstable := findProp_ro_stable_many ops _ n v hro hfind
  generalize hst1 : applySets (PropertySet a st n v).2.1 ops = st1 at hstable ⊢
  have key : PropertySet a2 st1 n v2 = (PropResult.errReadOnly, st1, []) := by
    unfold PropertySet
    dsimp only
    rw [if_neg (by simp [h1]), if_neg (by simp [hv2]), hstable]
    dsimp only
    rw [if_pos hro]
  rw [key]
  exact ⟨rfl, rfl, hstable⟩

/-- Witness for C2 (amended): `ro.foo` set once; the second set returns
`ReadOnlyAlready`. -/
theorem ro_write_once_witness :
    (PropertySet true (applySets (PropertySet true propStateW "ro.foo" "1").2.1 [])
      "ro.foo" "2").1 = PropResult.errReadOnly :=
  (ro_write_once true propStateW "ro.foo" "1" [] true "2" (by decide) (by decide)
    (by decide)).1

/-- C4: a set request whose name starts with `ctl.` never touches the
property store; every `ControlRequest` it emits carries the name with the
`ctl.` prefix stripped as `msg` and the request's value as the target
service name, and on Success exactly such a request was sent. -/
theorem handle_ctl_property (env : ServerEnv) (st : PropState) (name value : String)
    (pid : Nat) (hctl : StartsWith name "ctl." = true) :
    ∀ r st' ev, HandlePropertySet env st name value pid = (r, st', ev) →
      st' = st ∧
      (∀ m n p, PropEvent.controlMsg m n p ∈ ev →
        m = name.drop 4 ∧ n = value ∧ p = pid) ∧
      (r = PropResult.success →
        PropEvent.controlMsg (name.drop 4) value pid ∈ ev) := by
  intro r st' ev h
  unfold HandlePropertySet at h
  dsimp only at h
  split at h
  · injection h with ha hb
    injection hb with hb hc
    subst ha
    subst hb
    subst hc
    next hcond =>
      exact ⟨rfl, by simp, fun hr => absurd hr (by simpa using hcond)⟩
  · unfold SendControlMessage at h
    split at h
    · injection h with ha hb
      injection hb with hb hc
      subst ha
      subst hb
      subst hc
      refine ⟨rfl, by simp, fun hr => by simp at hr⟩
    · split at h
      · injection h with ha hb
        injection hb with hb hc
        subst ha
        subst hb
        subst hc
        refine ⟨rfl, by simp, fun hr => by simp at hr⟩
      · injection h with ha hb
        injection hb with hb hc
        subst ha
        subst hb
        subst hc
        refine ⟨rfl, ?_, fun _ => by simp⟩
        intro m n p hm
        simp at hm
        exact ⟨hm.1, hm.2.1, hm.2.2⟩

/-- Witness for C4: `ctl.start = svc` from pid 42 forwards
`ControlRequest{start, svc, 42}` and leaves the store unchanged. -/
theorem handle_ctl_property_witness :
    (HandlePropertySet envAllowW propMsgStateW "ctl.start" "svc" 42).2.1 =
      propMsgStateW ∧
    PropEvent.controlMsg "start" "svc" 42 ∈
      (HandlePropertySet envAllowW propMsgStateW "ctl.start" "svc" 42).2.2 := by
  have h := handle_ctl_property envAllowW propMsgStateW "ctl.start" "svc" 42
    (by decide)
    (HandlePropertySet envAllowW propMsgStateW "ctl.start" "svc" 42).1
    (HandlePropertySet envAllowW propMsgStateW "ctl.start" "svc" 42).2.1
    (HandlePropertySet envAllowW propMsgStateW "ctl.start" "svc" 42).2.2 rfl
  exact ⟨h.1, h.2.2 (by decide)⟩

theorem asyncRestoreconRun_get (paths : List String) :
    ∀ i p, (AsyncRestoreconRun paths)[i]? = some (PropEvent.workerStore p) →
      0 < i ∧ (AsyncRestoreconRun paths)[i - 1]? =
        some (PropEvent.restoreconDone p) := by
  induction paths with
  | nil =>
    intro i p h
    simp [AsyncRestoreconRun] at h
  | cons q rest ih =>
    intro i p h
    match i with
    | 0 => simp [AsyncRestoreconRun] at h
    | 1 =>
      refine ⟨Nat.one_pos, ?_⟩
      simp [AsyncRestoreconRun] at h ⊢
      exact h
    | n + 2 =>
      have hh : (AsyncRestoreconRun rest)[n]? = some (PropEvent.workerStore p) := by
        simpa [AsyncRestoreconRun] using h
      obtain ⟨hpos, hprev⟩ := ih n p hh
      refine ⟨by omega, ?_⟩
      obtain ⟨m, rfl⟩ : ∃ m, n = m + 1 := ⟨n - 1, by omega⟩
      simpa [AsyncRestoreconRun] using hprev

/-- C7: an authorized set of the restorecon trigger property from a writer
other than init (pid ≠ 1) with a non-empty value returns Success at once,
leaves the store untouched and only queues the path for the asynchronous
worker; the worker stores each path as a normal property only immediately
after the restorecon of that path finished. -/
theorem restorecon_async (env : ServerEnv) (st : PropState) (value : String)
    (pid : Nat)
    (hperm : CheckPermissions env kRestoreconProperty value = PropResult.success)
    (hpid : pid ≠ 1) (hval : value ≠ "") :
    HandlePropertySet env st kRestoreconProperty value pid =
      (PropResult.success, st, [PropEvent.triggerRestorecon value]) ∧
    (∀ paths i p, (AsyncRestoreconRun paths)[i]? = some (PropEvent.workerStore p) →
      0 < i ∧ (AsyncRestoreconRun paths)[i - 1]? =
        some (PropEvent.restoreconDone p)) := by
  constructor
  · unfold HandlePropertySet
    dsimp only
    rw [if_neg (by simp [hperm])]
    rw [if_neg (by decide)]
    rw [if_pos (show kRestoreconProperty = kRestoreconProperty ∧ pid ≠ 1 ∧ value ≠ ""
      from ⟨rfl, hpid, hval⟩)]
    rw [if_neg (by decide)]
    rfl
  · exact fun paths => asyncRestoreconRun_get paths

/-- Witness for C7: a concrete authorized request queues `/data/dir` and
stores nothing. -/
theorem restorecon_async_witness :
    HandlePropertySet envAllowW propMsgStateW kRestoreconProperty "/data/dir" 42 =
      (PropResult.success, propMsgStateW, [PropEvent.triggerRestorecon "/data/dir"]) :=
  (restorecon_async envAllowW propMsgStateW "/data/dir" 42 (by decide)
    (by decide) (by decide)).1

end SystemCore
